import Mathlib

/-!
Verification of the signed-upload workflow `upload_file_to_tos`
(src/use-cases/video_gen/tool/tos_upload.py) against its specification.

The Python function is shallowly embedded as a pure Lean function over an
explicit `World` that supplies the environment variables, the filesystem
predicates, the platform-identity (VeFaaS IAM) fallback, the current local
time, and the object-storage service operations (client construction,
container probe, transfer, URL signing).  Alongside its returned string the
embedding produces a `Trace` recording which external effects were performed
and with which arguments, so that claims about call counts, call ordering and
resource release are statable.
-/

/-- Credential triplet returned by the VeFaaS IAM fallback
(`get_credential_from_vefaas_iam`), field names as in the source
(lines 119-121). -/
structure Credential where
  access_key_id : String
  secret_access_key : String
  session_token : String
deriving DecidableEq, Repr

/-- A `tos.exceptions.TosServerError`: status code, service error code and
message, as used by the handlers at lines 160-164 and 193-198. -/
structure TosServerErr where
  status_code : Nat
  code : String
  message : String
deriving DecidableEq, Repr

/-- Faults the storage SDK can raise: `TosClientError`, `TosServerError`,
or any other `Exception` (the generic catch-all at line 199). -/
inductive TosFault where
  | clientError (msg : String)
  | serverError (e : TosServerErr)
  | otherError (msg : String)
deriving DecidableEq, Repr

/-- Result of `put_object_from_file` (etag and request id, logged at
lines 172-173). -/
structure PutObjectOutput where
  etag : String
  request_id : String
deriving DecidableEq, Repr

/-- The HTTP method passed to `pre_signed_url`; the workflow only uses
`Http_Method_Get` (line 177). -/
inductive HttpMethodType where
  | Http_Method_Get
  | Http_Method_Put
deriving DecidableEq, Repr

/-- A local wall-clock time, as consumed by `datetime.now().strftime`. -/
structure DateTime where
  year : Nat
  month : Nat
  day : Nat
  hour : Nat
  minute : Nat
  second : Nat
deriving DecidableEq, Repr

/-- The external world the workflow interacts with: environment variables,
filesystem, IAM fallback, clock, and the TOS service endpoints.  Each
fallible external call is a function returning `Except`. -/
structure World where
  /-- `os.getenv`: `none` when the variable is unset. -/
  env : String → Option String
  /-- `os.path.exists`. -/
  fileExists : String → Bool
  /-- `os.path.isfile`. -/
  isFile : String → Bool
  /-- `get_credential_from_vefaas_iam()`; `.error` is the exception text. -/
  iam : Except String Credential
  /-- `datetime.now()`. -/
  now : DateTime
  /-- Construction of `tos.TosClientV2` may itself raise. -/
  newClient : Except TosFault Unit
  /-- `client.head_bucket bucket`. -/
  headBucket : String → Except TosFault Unit
  /-- `client.put_object_from_file bucket key file_path`. -/
  putObject : String → String → String → Except TosFault PutObjectOutput
  /-- `client.pre_signed_url method bucket key expires`. -/
  preSignedUrl : HttpMethodType → String → String → Nat → Except TosFault String

/-- Arguments passed to the `tos.TosClientV2` constructor (line 144-150). -/
structure ClientArgs where
  ak : String
  sk : String
  security_token : String
  endpoint : String
  region : String
deriving DecidableEq, Repr

/-- Observable effect trace of one invocation: counters for each external
call and the arguments of the calls the claims need to inspect. -/
structure Trace where
  /-- reads of the two credential environment variables (lines 112-113) -/
  credEnvReads : Nat := 0
  /-- calls to the VeFaaS IAM fallback -/
  iamCalls : Nat := 0
  /-- successful constructions of the transfer client -/
  clientConstructs : Nat := 0
  /-- arguments of the successful client construction -/
  clientArgs : Option ClientArgs := none
  /-- calls to the container-existence probe `head_bucket` -/
  headBucketCalls : Nat := 0
  /-- calls to `create_bucket` (the source never issues one) -/
  createBucketCalls : Nat := 0
  /-- calls to `put_object_from_file` -/
  putObjectCalls : Nat := 0
  /-- (bucket, key, file_path) of the transfer call -/
  putArgs : Option (String × String × String) := none
  /-- calls to `pre_signed_url` -/
  signCalls : Nat := 0
  /-- (method, bucket, key, expires) of the signing call -/
  signArgs : Option (HttpMethodType × String × String × Nat) := none
  /-- calls to `client.close()` in the `finally` block -/
  closeCalls : Nat := 0
deriving DecidableEq, Repr

/-- Modelled from the spec: the module `consts` (imported at lines 36-38) is
not part of the provided sources; per the spec and the function docstring the
built-in default bucket is the placeholder name and the default region is
cn-beijing.  Only the fallback-to-constant behaviour, not the value, matters
for any claim. -/
def DEFAULT_BUCKET : String := "aaa-bbb-ccc-ddd"

/-- Modelled from the spec: default region constant from the missing
`consts` module (docstring: "defaults to cn-beijing"). -/
def DEFAULT_REGION : String := "cn-beijing"

/-- Python truthiness of an `Optional[str]`: `None` and `""` are falsy. -/
def pyTruthy : Option String → Bool
  | none => false
  | some s => s != ""

/-- `os.path.basename` for POSIX paths: the part after the last slash. -/
def basename (p : String) : String :=
  String.mk ((p.toList.reverse.takeWhile (fun c => c ≠ '/')).reverse)

/-- Zero-pad the decimal representation of `n` to at least `width` digits. -/
def padNum (width n : Nat) : String :=
  let s := toString n
  if s.length < width then String.mk (List.replicate (width - s.length) '0') ++ s
  else s

/-- `datetime.strftime("%Y%m%d_%H%M%S")` on the embedded `DateTime`. -/
def strftimeYmdHMS (t : DateTime) : String :=
  padNum 4 t.year ++ padNum 2 t.month ++ padNum 2 t.day ++ "_" ++
    padNum 2 t.hour ++ padNum 2 t.minute ++ padNum 2 t.second

/-- Auto-derived object key (lines 133-137):
`"upload/" + filename + "_" + timestamp`. -/
def autoObjectKey (file_path : String) (now : DateTime) : String :=
  "upload/" ++ basename file_path ++ "_" ++ strftimeYmdHMS now

/-- Bucket-name resolution (lines 80-89): a supplied argument is used
unchanged; otherwise the `DATABASE_TOS_BUCKET` environment variable;
otherwise the built-in default. -/
def resolveBucket (w : World) : Option String → String
  | some b => b
  | none =>
    match w.env "DATABASE_TOS_BUCKET" with
    | some b => b
    | none => DEFAULT_BUCKET

/-- Region resolution (lines 90-98), analogous to the bucket. -/
def resolveRegion (w : World) : Option String → String
  | some r => r
  | none =>
    match w.env "DATABASE_TOS_REGION" with
    | some r => r
    | none => DEFAULT_REGION

/-- The messages produced by the three `except` handlers of the outer
`try` (lines 189-202). -/
def handleFault : TosFault → String
  | .clientError m => "ERROR: TOS client error: " ++ m
  | .serverError e =>
      "ERROR: TOS server error: status_code=" ++ toString e.status_code ++
        ", code=" ++ e.code ++ ", message=" ++ e.message
  | .otherError m => "ERROR: File upload failed: " ++ m

/-- The inner probe handling (lines 157-164): `head_bucket` faults are
re-raised unless they are a `TosServerError` with status 404, which is
logged and swallowed. -/
def headBucketStep (w : World) (bucket_name : String) : Except TosFault Unit :=
  match w.headBucket bucket_name with
  | .ok _ => .ok ()
  | .error (.serverError e) =>
      if e.status_code == 404 then .ok () else .error (.serverError e)
  | .error f => .error f

/-- The body of the outer `try` block (lines 141-206) once credentials and
the object key are fixed: construct the client, probe the container,
transfer the file, sign, and close the client in `finally` (only when the
construction succeeded).  Returns the final string together with the trace
continuation of `t`. -/
def tryTransfer (w : World) (access_key secret_key session_token : String)
    (bucket_name object_key region file_path : String) (expires : Nat)
    (t : Trace) : Option String × Trace :=
  let endpoint := "tos-" ++ region ++ ".bytepluses.com"
  match w.newClient with
  | .error f =>
      -- constructor raised: `client` is still None, `finally` skips close
      (some (handleFault f), t)
  | .ok _ =>
    let args : ClientArgs :=
      { ak := access_key, sk := secret_key, security_token := session_token,
        endpoint := endpoint, region := region }
    let t := { t with clientConstructs := 1, clientArgs := some args }
    let t := { t with headBucketCalls := 1 }
    match headBucketStep w bucket_name with
    | .error f => (some (handleFault f), { t with closeCalls := 1 })
    | .ok _ =>
      let t := { t with putObjectCalls := 1, putArgs := some (bucket_name, object_key, file_path) }
      match w.putObject bucket_name object_key file_path with
      | .error f => (some (handleFault f), { t with closeCalls := 1 })
      | .ok _result =>
        let t := { t with signCalls := 1, signArgs := some (HttpMethodType.Http_Method_Get, bucket_name, object_key, expires) }
        match w.preSignedUrl HttpMethodType.Http_Method_Get bucket_name
            object_key expires with
        | .error f => (some (handleFault f), { t with closeCalls := 1 })
        | .ok signed_url => (some signed_url, { t with closeCalls := 1 })

/-- The object key the transfer and signing calls use (lines 132-137):
the supplied key when it is truthy (neither absent nor the empty string),
otherwise the auto-derived `"upload/<filename>_<timestamp>"` key. -/
def usedObjectKey (w : World) (object_key : Option String)
    (file_path : String) : String :=
  if pyTruthy object_key then object_key.getD ""
  else autoObjectKey file_path w.now

/-- Credential check and everything after it (lines 127-206): the
`if not access_key or not secret_key` guard, object-key derivation, and the
transfer `try` block.  `access_key` and `secret_key` are `Option String`
because in the environment-variable branch they are still `os.getenv`
results (Python `Optional[str]`). -/
def afterCredentials (w : World) (access_key secret_key : Option String)
    (session_token : String) (bucket_name : String)
    (object_key : Option String) (region file_path : String) (expires : Nat)
    (t : Trace) : Option String × Trace :=
  if !pyTruthy access_key || !pyTruthy secret_key then
    (some ("ERROR: VOLCENGINE_ACCESS_KEY and VOLCENGINE_SECRET_KEY are " ++
        "not provided (and IAM Role is not configured)."), t)
  else
    tryTransfer w (access_key.getD "") (secret_key.getD "") session_token
      bucket_name (usedObjectKey w object_key file_path) region file_path
      expires t

/-- Shallow embedding of `upload_file_to_tos` (tos_upload.py lines 44-206).
The explicit `ak`, `sk` and `session_token` parameters are accepted exactly
as in the source; note that the source never reads `ak`/`sk` and overwrites
`session_token` at line 114 before any use. -/
def upload_file_to_tos (w : World) (file_path : String)
    (bucket_name : Option String := none) (object_key : Option String := none)
    (region : Option String := none) (ak : Option String := none)
    (sk : Option String := none) (session_token : Option String := none)
    (expires : Nat := 604800) : Option String × Trace :=
  -- lines 80-98: bucket/region resolution
  let bucket_name := resolveBucket w bucket_name
  let region := resolveRegion w region
  -- lines 100-109: existence validation, before any credential or network call
  if !w.fileExists file_path then
    (some ("ERROR: File does not exist: " ++ file_path), {})
  else if !w.isFile file_path then
    (some ("ERROR: Path is not a file: " ++ file_path), {})
  else
    -- lines 112-114: read the credential environment variables; the
    -- `session_token` parameter is overwritten with the empty string
    let access_key := w.env "VOLCENGINE_ACCESS_KEY"
    let secret_key := w.env "VOLCENGINE_SECRET_KEY"
    let t : Trace := { credEnvReads := 2 }
    -- lines 116-125: platform-identity fallback when either is missing/empty
    if !(pyTruthy access_key && pyTruthy secret_key) then
      match w.iam with
      | .error e =>
          (some ("ERROR: Missing VOLCENGINE_ACCESS_KEY/VOLCENGINE_SECRET_KEY" ++
              " and failed to load VeFaaS IAM credentials: " ++ e),
            { t with iamCalls := 1 })
      | .ok cred =>
          afterCredentials w (some cred.access_key_id)
            (some cred.secret_access_key) cred.session_token
            bucket_name object_key region file_path expires
            { t with iamCalls := 1 }
    else
      afterCredentials w access_key secret_key "" bucket_name object_key
        region file_path expires t

/-- A string that begins with the `"ERROR:"` diagnostic marker. -/
def isErrorString (s : String) : Prop :=
  ∃ rest, s = "ERROR:" ++ rest

/-- Invocations whose credential step succeeds, following the source
structure (lines 112-130): either both credential environment variables are
truthy (the IAM fallback is then never consulted), or they are not and the
IAM fallback returns a credential whose two keys are non-empty. -/
def credsObtained (w : World) : Prop :=
  (pyTruthy (w.env "VOLCENGINE_ACCESS_KEY") &&
    pyTruthy (w.env "VOLCENGINE_SECRET_KEY")) = true ∨
  ((pyTruthy (w.env "VOLCENGINE_ACCESS_KEY") &&
      pyTruthy (w.env "VOLCENGINE_SECRET_KEY")) = false ∧
    ∃ cred, w.iam = Except.ok cred ∧ cred.access_key_id ≠ "" ∧
      cred.secret_access_key ≠ "")

/-- A concrete world for witnesses: environment credentials present, all
filesystem checks pass, every storage call succeeds, and the clock reads
2025-01-02 03:04:05. -/
def wHappy : World where
  env := fun n =>
    if n = "VOLCENGINE_ACCESS_KEY" then some "AKIA"
    else if n = "VOLCENGINE_SECRET_KEY" then some "SECRET"
    else none
  fileExists := fun _ => true
  isFile := fun _ => true
  iam := Except.error "no role"
  now := { year := 2025, month := 1, day := 2, hour := 3, minute := 4, second := 5 }
  newClient := Except.ok ()
  headBucket := fun _ => Except.ok ()
  putObject := fun _ _ _ => Except.ok { etag := "etag1", request_id := "req1" }
  preSignedUrl := fun _ b k _ => Except.ok ("https://" ++ b ++ ".signed/" ++ k ++ "?X-Tos-Signature=sig")

/-- A concrete world for witnesses: no environment credentials and a
failing IAM fallback; filesystem checks pass. -/
def wNoCreds : World where
  env := fun _ => none
  fileExists := fun _ => true
  isFile := fun _ => true
  iam := Except.error "boom"
  now := { year := 2025, month := 1, day := 2, hour := 3, minute := 4, second := 5 }
  newClient := Except.ok ()
  headBucket := fun _ => Except.ok ()
  putObject := fun _ _ _ => Except.ok { etag := "e", request_id := "r" }
  preSignedUrl := fun _ _ _ _ => Except.ok "https://unused"

/-- A concrete world for witnesses: the source path does not exist. -/
def wNoFile : World where
  env := fun _ => none
  fileExists := fun _ => false
  isFile := fun _ => false
  iam := Except.error "boom"
  now := { year := 2025, month := 1, day := 2, hour := 3, minute := 4, second := 5 }
  newClient := Except.ok ()
  headBucket := fun _ => Except.ok ()
  putObject := fun _ _ _ => Except.ok { etag := "e", request_id := "r" }
  preSignedUrl := fun _ _ _ _ => Except.ok "https://unused"

/-- A concrete world for witnesses: the container probe reports a
`TosServerError` with status 404, everything else succeeds. -/
def wProbe404 : World where
  env := fun n =>
    if n = "VOLCENGINE_ACCESS_KEY" then some "AKIA"
    else if n = "VOLCENGINE_SECRET_KEY" then some "SECRET"
    else none
  fileExists := fun _ => true
  isFile := fun _ => true
  iam := Except.error "no role"
  now := { year := 2025, month := 1, day := 2, hour := 3, minute := 4, second := 5 }
  newClient := Except.ok ()
  headBucket := fun _ =>
    Except.error (TosFault.serverError { status_code := 404, code := "NoSuchBucket", message := "not found" })
  putObject := fun _ _ _ => Except.ok { etag := "e", request_id := "r" }
  preSignedUrl := fun _ b k _ => Except.ok ("https://" ++ b ++ ".signed/" ++ k)

/-- A concrete world for witnesses: the transfer call raises a
`TosServerError` with status 500. -/
def wPut500 : World where
  env := fun n =>
    if n = "VOLCENGINE_ACCESS_KEY" then some "AKIA"
    else if n = "VOLCENGINE_SECRET_KEY" then some "SECRET"
    else none
  fileExists := fun _ => true
  isFile := fun _ => true
  iam := Except.error "no role"
  now := { year := 2025, month := 1, day := 2, hour := 3, minute := 4, second := 5 }
  newClient := Except.ok ()
  headBucket := fun _ => Except.ok ()
  putObject := fun _ _ _ =>
    Except.error (TosFault.serverError { status_code := 500, code := "InternalError", message := "server exploded" })
  preSignedUrl := fun _ _ _ _ => Except.ok "https://unused"

/-- Helper: the error-string property is preserved by appending on the
right. -/
theorem isErrorString_append {s : String} (h : isErrorString s) (t : String) :
    isErrorString (s ++ t) := by
  obtain ⟨r, hr⟩ := h
  exact ⟨r ++ t, by rw [hr, String.append_assoc]⟩

/-- Helper: every message the fault handlers produce begins with the
`"ERROR:"` marker. -/
theorem isErrorString_handleFault (f : TosFault) : isErrorString (handleFault f) := by
  cases f with
  | clientError m =>
      exact isErrorString_append ⟨" TOS client error: ", by decide⟩ m
  | serverError e =>
      exact isErrorString_append (isErrorString_append (isErrorString_append
        (isErrorString_append (isErrorString_append
          ⟨" TOS server error: status_code=", by decide⟩
          (toString e.status_code)) ", code=") e.code) ", message=") e.message
  | otherError m =>
      exact isErrorString_append ⟨" File upload failed: ", by decide⟩ m

/-- Helper: a non-empty string is Python-truthy. -/
theorem pyTruthy_of_ne {s : String} (h : s ≠ "") : pyTruthy (some s) = true := by
  simp [pyTruthy, bne_iff_ne, h]

/-- C1: every invocation of `upload_file_to_tos` returns a string (never
`None`, never a partial value), and that string is either a diagnostic
beginning with `"ERROR:"` or the signed URL produced by the storage
service; no exception escapes the workflow boundary. -/
theorem C1_upload_always_returns_string (w : World) (file_path : String)
    (bucket_name object_key region ak sk session_token : Option String)
    (expires : Nat) :
    ∃ out, (upload_file_to_tos w file_path bucket_name object_key region
        ak sk session_token expires).1 = some out ∧
      (isErrorString out ∨
        ∃ bk key, w.preSignedUrl HttpMethodType.Http_Method_Get bk key expires =
          Except.ok out) := by
  unfold upload_file_to_tos afterCredentials tryTransfer
  dsimp only
  repeat' split
  all_goals first
    | exact ⟨_, rfl, Or.inl (isErrorString_append
        ⟨" File does not exist: ", by decide⟩ _)⟩
    | exact ⟨_, rfl, Or.inl (isErrorString_append
        ⟨" Path is not a file: ", by decide⟩ _)⟩
    | exact ⟨_, rfl, Or.inl (isErrorString_append (isErrorString_append
        ⟨" Missing VOLCENGINE_ACCESS_KEY/VOLCENGINE_SECRET_KEY", by decide⟩
        " and failed to load VeFaaS IAM credentials: ") _)⟩
    | exact ⟨_, rfl, Or.inl (isErrorString_append
        ⟨" VOLCENGINE_ACCESS_KEY and VOLCENGINE_SECRET_KEY are ", by decide⟩ _)⟩
    | exact ⟨_, rfl, Or.inl (isErrorString_handleFault _)⟩
    | exact ⟨_, rfl, Or.inr ⟨_, _, by assumption⟩⟩

/-- C3: a non-existent source path yields the exact
`"ERROR: File does not exist: <path>"` message, and an existing
non-regular-file path yields `"ERROR: Path is not a file: <path>"`;
in both cases the trace is empty, so the function returns before any
credential read, IAM call, client construction or storage call. -/
theorem C3_file_validation_precedes_everything (w : World) (file_path : String)
    (b k r a s st : Option String) (e : Nat) :
    (w.fileExists file_path = false →
      upload_file_to_tos w file_path b k r a s st e =
        (some ("ERROR: File does not exist: " ++ file_path), {})) ∧
    (w.fileExists file_path = true → w.isFile file_path = false →
      upload_file_to_tos w file_path b k r a s st e =
        (some ("ERROR: Path is not a file: " ++ file_path), {})) := by
  constructor
  · intro h
    unfold upload_file_to_tos
    rw [h]
    rfl
  · intro h1 h2
    unfold upload_file_to_tos
    rw [h1, h2]
    rfl

/-- Witness for C3 at a concrete world whose filesystem is empty. -/
theorem C3_witness :
    wNoFile.fileExists "nope.mp4" = false ∧
    upload_file_to_tos wNoFile "nope.mp4" none none none none none none 604800 =
      (some "ERROR: File does not exist: nope.mp4", {}) :=
  ⟨rfl, ((C3_file_validation_precedes_everything wNoFile "nope.mp4"
    none none none none none none 604800).1 rfl).trans (by decide)⟩

/-- C4: on every exit path the close counter equals the number of
successful client constructions, which is at most one: the client is
released exactly once when it was constructed and never released on paths
that return before construction (no leak, no double release). -/
theorem C4_client_released_exactly_once (w : World) (file_path : String)
    (b k r a s st : Option String) (e : Nat) :
    (upload_file_to_tos w file_path b k r a s st e).2.closeCalls =
      (upload_file_to_tos w file_path b k r a s st e).2.clientConstructs ∧
    (upload_file_to_tos w file_path b k r a s st e).2.clientConstructs ≤ 1 := by
  unfold upload_file_to_tos afterCredentials tryTransfer
  dsimp only
  repeat' split
  all_goals exact ⟨rfl, by first | exact Nat.zero_le 1 | exact Nat.le_refl 1⟩

/-- Helper: when the file checks pass and the credential step succeeds
(`credsObtained`), the invocation reduces to the transfer block applied to
the resolved bucket, the used object key and the resolved region, starting
from a trace with all storage counters still zero. -/
theorem upload_reaches_transfer (w : World) (file_path : String)
    (b k r a s st : Option String) (e : Nat)
    (hF : w.fileExists file_path = true) (hI : w.isFile file_path = true)
    (hC : credsObtained w) :
    ∃ akv skv tok tr,
      upload_file_to_tos w file_path b k r a s st e =
        tryTransfer w akv skv tok (resolveBucket w b)
          (usedObjectKey w k file_path) (resolveRegion w r) file_path e tr ∧
      tr.iamCalls ≤ 1 ∧ tr.clientConstructs = 0 ∧ tr.headBucketCalls = 0 ∧
      tr.createBucketCalls = 0 ∧ tr.putObjectCalls = 0 ∧ tr.signCalls = 0 ∧
      tr.closeCalls = 0 ∧ tr.putArgs = none ∧ tr.signArgs = none := by
  unfold upload_file_to_tos afterCredentials
  dsimp only
  rcases hC with hEnv | ⟨hEnv, cred, hIam, hAK, hSK⟩
  · obtain ⟨h1, h2⟩ := Bool.and_eq_true_iff.mp hEnv
    simp [hF, hI, hEnv, h1, h2]
    exact ⟨_, _, _, _, rfl, Nat.zero_le 1, rfl, rfl, rfl, rfl, rfl, rfl, rfl, rfl⟩
  · simp [hF, hI, hEnv, hIam, pyTruthy_of_ne hAK, pyTruthy_of_ne hSK]
    exact ⟨_, _, _, _, rfl, Nat.le_refl 1, rfl, rfl, rfl, rfl, rfl, rfl, rfl, rfl⟩

/-- Helper: when the client constructs and the probe step passes, the
transfer call receives exactly (bucket, key, file path). -/
theorem tryTransfer_putArgs (w : World) (akv skv tok bucket key region fp : String)
    (e : Nat) (tr : Trace) (hN : w.newClient = Except.ok ())
    (hH : headBucketStep w bucket = Except.ok ()) :
    (tryTransfer w akv skv tok bucket key region fp e tr).2.putArgs =
      some (bucket, key, fp) := by
  unfold tryTransfer
  simp only [hN, hH]
  repeat' split
  all_goals rfl

/-- Helper: a probe fault with status 404 is swallowed by the inner
handler. -/
theorem headBucketStep_404 {w : World} {bucket : String} {err : TosServerErr}
    (hHB : w.headBucket bucket = Except.error (TosFault.serverError err))
    (h404 : err.status_code = 404) :
    headBucketStep w bucket = Except.ok () := by
  simp [headBucketStep, hHB, h404]

/-- Helper: every probe fault other than a status-404 server fault is
re-raised unchanged by the inner handler. -/
theorem headBucketStep_fault {w : World} {bucket : String} {f : TosFault}
    (hHB : w.headBucket bucket = Except.error f)
    (hne : ∀ err, f = TosFault.serverError err → err.status_code ≠ 404) :
    headBucketStep w bucket = Except.error f := by
  cases f with
  | serverError err =>
      have h4 : (err.status_code == 404) = false :=
        beq_eq_false_iff_ne.mpr (hne err rfl)
      simp [headBucketStep, hHB, h4]
  | clientError m => simp [headBucketStep, hHB]
  | otherError m => simp [headBucketStep, hHB]

/-- Helper: once the probe step passes, the transfer is attempted exactly
once and no container-creation call is issued. -/
theorem tryTransfer_after_head_ok (w : World)
    (akv skv tok bucket key region fp : String) (e : Nat) (tr : Trace)
    (hN : w.newClient = Except.ok ())
    (hH : headBucketStep w bucket = Except.ok ()) :
    (tryTransfer w akv skv tok bucket key region fp e tr).2.putObjectCalls = 1 ∧
    (tryTransfer w akv skv tok bucket key region fp e tr).2.createBucketCalls =
      tr.createBucketCalls := by
  unfold tryTransfer
  simp only [hN, hH]
  repeat' split
  all_goals exact ⟨rfl, rfl⟩

/-- Helper: a re-raised probe fault becomes the returned handler message
and the transfer is never attempted. -/
theorem tryTransfer_head_fault (w : World)
    (akv skv tok bucket key region fp : String) (e : Nat) (tr : Trace)
    (hN : w.newClient = Except.ok ()) (f : TosFault)
    (hH : headBucketStep w bucket = Except.error f) :
    (tryTransfer w akv skv tok bucket key region fp e tr).1 =
      some (handleFault f) ∧
    (tryTransfer w akv skv tok bucket key region fp e tr).2.putObjectCalls =
      tr.putObjectCalls := by
  unfold tryTransfer
  simp only [hN, hH]
  first
    | exact ⟨rfl, rfl⟩
    | exact ⟨rfl, trivial⟩
    | exact ⟨trivial, rfl⟩
    | trivial

/-- Helper: a transfer fault becomes the returned handler message; the
transfer was attempted once and signing never happens. -/
theorem tryTransfer_put_fault (w : World)
    (akv skv tok bucket key region fp : String) (e : Nat) (tr : Trace)
    (hN : w.newClient = Except.ok ())
    (hH : headBucketStep w bucket = Except.ok ()) (f : TosFault)
    (hP : w.putObject bucket key fp = Except.error f) :
    (tryTransfer w akv skv tok bucket key region fp e tr).1 =
      some (handleFault f) ∧
    (tryTransfer w akv skv tok bucket key region fp e tr).2.putObjectCalls = 1 ∧
    (tryTransfer w akv skv tok bucket key region fp e tr).2.signCalls =
      tr.signCalls := by
  unfold tryTransfer
  simp only [hN, hH, hP]
  refine ⟨?_, ?_, ?_⟩ <;> first | rfl | trivial

/-- C5: when no object key is supplied, the key handed to the transfer is
`"upload/" + basename(file_path) + "_" + strftime(now, YYYYMMDD_HHMMSS)`;
the witness instantiates it at filename video.mp4 and clock
2025-01-02 03:04:05, yielding `upload/video.mp4_20250102_030405`. -/
theorem C5_object_key_auto_derivation (w : World) (file_path : String)
    (b r a s st : Option String) (e : Nat)
    (hF : w.fileExists file_path = true) (hI : w.isFile file_path = true)
    (hC : credsObtained w) (hN : w.newClient = Except.ok ())
    (hH : headBucketStep w (resolveBucket w b) = Except.ok ()) :
    (upload_file_to_tos w file_path b none r a s st e).2.putArgs =
      some (resolveBucket w b,
        "upload/" ++ basename file_path ++ "_" ++ strftimeYmdHMS w.now,
        file_path) := by
  obtain ⟨akv, skv, tok, tr, heq, -⟩ :=
    upload_reaches_transfer w file_path b none r a s st e hF hI hC
  rw [heq, tryTransfer_putArgs _ _ _ _ _ _ _ _ _ _ hN hH]
  rfl

/-- Witness for C5: the concrete derived key for video.mp4 at
2025-01-02 03:04:05. -/
theorem C5_witness :
    (upload_file_to_tos wHappy "video.mp4" none none none none none none
      604800).2.putArgs =
      some ("aaa-bbb-ccc-ddd", "upload/video.mp4_20250102_030405", "video.mp4") :=
  (C5_object_key_auto_derivation wHappy "video.mp4" none none none none none
    604800 rfl rfl (Or.inl (by decide)) rfl rfl).trans (by decide)

/-- C6: a container probe fault that is a status-404 server error is
swallowed — the workflow still performs the transfer exactly once and never
issues a create-container call — while any other probe fault becomes the
returned handler error string and the transfer is never attempted. -/
theorem C6_probe_not_found_proceeds (w : World) (file_path : String)
    (b k r a s st : Option String) (e : Nat)
    (hF : w.fileExists file_path = true) (hI : w.isFile file_path = true)
    (hC : credsObtained w) (hN : w.newClient = Except.ok ()) :
    (∀ err : TosServerErr,
      w.headBucket (resolveBucket w b) =
        Except.error (TosFault.serverError err) →
      err.status_code = 404 →
        (upload_file_to_tos w file_path b k r a s st e).2.putObjectCalls = 1 ∧
        (upload_file_to_tos w file_path b k r a s st e).2.createBucketCalls = 0) ∧
    (∀ f : TosFault, w.headBucket (resolveBucket w b) = Except.error f →
      (∀ err, f = TosFault.serverError err → err.status_code ≠ 404) →
        (upload_file_to_tos w file_path b k r a s st e).1 =
          some (handleFault f) ∧
        (upload_file_to_tos w file_path b k r a s st e).2.putObjectCalls = 0) := by
  obtain ⟨akv, skv, tok, tr, heq, -, -, -, hcb, hput, -, -⟩ :=
    upload_reaches_transfer w file_path b k r a s st e hF hI hC
  constructor
  · intro err hHB h404
    have h := tryTransfer_after_head_ok w akv skv tok (resolveBucket w b)
      (usedObjectKey w k file_path) (resolveRegion w r) file_path e tr hN
      (headBucketStep_404 hHB h404)
    rw [heq]
    exact ⟨h.1, h.2.trans hcb⟩
  · intro f hHB hne
    have h := tryTransfer_head_fault w akv skv tok (resolveBucket w b)
      (usedObjectKey w k file_path) (resolveRegion w r) file_path e tr hN f
      (headBucketStep_fault hHB hne)
    rw [heq]
    exact ⟨h.1, h.2.trans hput⟩

/-- Witness for C6 at a concrete world whose probe reports 404. -/
theorem C6_witness :
    (upload_file_to_tos wProbe404 "video.mp4" none none none none none none
      604800).2.putObjectCalls = 1 ∧
    (upload_file_to_tos wProbe404 "video.mp4" none none none none none none
      604800).2.createBucketCalls = 0 :=
  (C6_probe_not_found_proceeds wProbe404 "video.mp4" none none none none none
    none 604800 rfl rfl (Or.inl (by decide)) rfl).1 _ rfl rfl

/-- C7: a server-side fault raised by the transfer becomes a returned
string carrying the status code, service error code and message; the
transfer was attempted exactly once (no retry) and no signing call — hence
no URL — happens. -/
theorem C7_transfer_server_fault_surfaced (w : World) (file_path : String)
    (b k r a s st : Option String) (e : Nat)
    (hF : w.fileExists file_path = true) (hI : w.isFile file_path = true)
    (hC : credsObtained w) (hN : w.newClient = Except.ok ())
    (hH : headBucketStep w (resolveBucket w b) = Except.ok ())
    (err : TosServerErr)
    (hP : w.putObject (resolveBucket w b) (usedObjectKey w k file_path)
      file_path = Except.error (TosFault.serverError err)) :
    (upload_file_to_tos w file_path b k r a s st e).1 =
      some ("ERROR: TOS server error: status_code=" ++
        toString err.status_code ++ ", code=" ++ err.code ++
        ", message=" ++ err.message) ∧
    (upload_file_to_tos w file_path b k r a s st e).2.putObjectCalls = 1 ∧
    (upload_file_to_tos w file_path b k r a s st e).2.signCalls = 0 := by
  obtain ⟨akv, skv, tok, tr, heq, -, -, -, -, -, hsign, -⟩ :=
    upload_reaches_transfer w file_path b k r a s st e hF hI hC
  have h := tryTransfer_put_fault w akv skv tok (resolveBucket w b)
    (usedObjectKey w k file_path) (resolveRegion w r) file_path e tr hN hH
    (TosFault.serverError err) hP
  rw [heq]
  exact ⟨h.1, h.2.1, h.2.2.trans hsign⟩

/-- Witness for C7 at a concrete world whose transfer raises status 500. -/
theorem C7_witness :
    (upload_file_to_tos wPut500 "video.mp4" none none none none none none
      604800).1 =
      some ("ERROR: TOS server error: status_code=500, code=InternalError, " ++
        "message=server exploded") :=
  ((C7_transfer_server_fault_surfaced wPut500 "video.mp4" none none none none
    none none 604800 rfl rfl (Or.inl (by decide)) rfl rfl
    { status_code := 500, code := "InternalError", message := "server exploded" }
    rfl).1).trans (by decide)

/-- C8: when neither credential environment variable is usable, the
returned string names both VOLCENGINE_ACCESS_KEY and
VOLCENGINE_SECRET_KEY — whether the IAM fallback raised (first message) or
returned empty keys (second message). -/
theorem C8_missing_credentials_error (w : World) (file_path : String)
    (b k r a s st : Option String) (e : Nat)
    (hF : w.fileExists file_path = true) (hI : w.isFile file_path = true)
    (hEnv : (pyTruthy (w.env "VOLCENGINE_ACCESS_KEY") &&
      pyTruthy (w.env "VOLCENGINE_SECRET_KEY")) = false) :
    (∀ em, w.iam = Except.error em →
      (upload_file_to_tos w file_path b k r a s st e).1 =
        some ("ERROR: Missing VOLCENGINE_ACCESS_KEY/VOLCENGINE_SECRET_KEY and failed to load VeFaaS IAM credentials: " ++ em)) ∧
    (∀ cred, w.iam = Except.ok cred →
      (!pyTruthy (some cred.access_key_id) ||
        !pyTruthy (some cred.secret_access_key)) = true →
      (upload_file_to_tos w file_path b k r a s st e).1 =
        some "ERROR: VOLCENGINE_ACCESS_KEY and VOLCENGINE_SECRET_KEY are not provided (and IAM Role is not configured).") := by
  constructor
  · intro em hIam
    unfold upload_file_to_tos
    simp [hF, hI, hEnv, hIam]
  · intro cred hIam hGuard
    unfold upload_file_to_tos afterCredentials
    simp [hF, hI, hEnv, hIam, hGuard]

/-- Witness for C8 at a concrete world with no environment credentials and
a failing IAM fallback. -/
theorem C8_witness :
    (upload_file_to_tos wNoCreds "f.mp4" none none none none none none
      604800).1 =
      some ("ERROR: Missing VOLCENGINE_ACCESS_KEY/VOLCENGINE_SECRET_KEY and " ++
        "failed to load VeFaaS IAM credentials: boom") :=
  ((C8_missing_credentials_error wNoCreds "f.mp4" none none none none none
    none 604800 rfl rfl (by decide)).1 "boom" rfl).trans (by decide)

/-- C2 counterexample: with valid explicit ak/sk/session_token parameters
but no environment credentials and a failing IAM fallback, the invocation
fails anyway — so the explicit parameters are not the first credential
source (they are never consulted). -/
theorem C2_counterexample_explicit_params_unused :
    (upload_file_to_tos wNoCreds "f.mp4" none none none (some "AK")
      (some "SK") (some "TOK") 604800).1 =
      some ("ERROR: Missing VOLCENGINE_ACCESS_KEY/VOLCENGINE_SECRET_KEY and " ++
        "failed to load VeFaaS IAM credentials: boom") := by
  decide

/-- C2 amended: the explicit ak/sk/session_token parameters are ignored
(the result is identical for any values supplied); credential resolution
tries the two environment variables first — when both are truthy the IAM
fallback is never called — and otherwise calls the IAM fallback exactly
once, failing with an error string when it raises. -/
theorem C2_amended_env_then_iam (w : World) (file_path : String)
    (b k r ak sk st ak2 sk2 st2 : Option String) (e : Nat) :
    upload_file_to_tos w file_path b k r ak sk st e =
      upload_file_to_tos w file_path b k r ak2 sk2 st2 e ∧
    (w.fileExists file_path = true → w.isFile file_path = true →
      ((pyTruthy (w.env "VOLCENGINE_ACCESS_KEY") &&
          pyTruthy (w.env "VOLCENGINE_SECRET_KEY")) = true →
        (upload_file_to_tos w file_path b k r ak sk st e).2.iamCalls = 0) ∧
      ((pyTruthy (w.env "VOLCENGINE_ACCESS_KEY") &&
          pyTruthy (w.env "VOLCENGINE_SECRET_KEY")) = false →
        (upload_file_to_tos w file_path b k r ak sk st e).2.iamCalls = 1 ∧
        (∀ em, w.iam = Except.error em →
          (upload_file_to_tos w file_path b k r ak sk st e).1 =
            some ("ERROR: Missing VOLCENGINE_ACCESS_KEY/VOLCENGINE_SECRET_KEY and failed to load VeFaaS IAM credentials: " ++ em)))) := by
  refine ⟨rfl, fun hF hI => ⟨fun hEnv => ?_, fun hEnv => ⟨?_, fun em hIam => ?_⟩⟩⟩
  · obtain ⟨h1, h2⟩ := Bool.and_eq_true_iff.mp hEnv
    unfold upload_file_to_tos afterCredentials tryTransfer
    simp [hF, hI, hEnv, h1, h2]
    repeat' split
    all_goals rfl
  · unfold upload_file_to_tos afterCredentials tryTransfer
    cases hIam2 : w.iam with
    | error em2 => simp [hF, hI, hEnv, hIam2]
    | ok cred =>
        simp [hF, hI, hEnv, hIam2]
        repeat' split
        all_goals rfl
  · unfold upload_file_to_tos
    simp [hF, hI, hEnv, hIam]

/-- Witness for the amended C2 at a concrete world: despite valid explicit
parameters the IAM fallback is consulted (exactly once). -/
theorem C2_amended_witness :
    (upload_file_to_tos wNoCreds "f.mp4" none none none (some "AK")
      (some "SK") (some "TOK") 604800).2.iamCalls = 1 :=
  (((C2_amended_env_then_iam wNoCreds "f.mp4" none none none (some "AK")
    (some "SK") (some "TOK") none none none 604800).2 rfl rfl).2 (by decide)).1

/-- C9: a supplied container or region argument is used unchanged; when
absent it is read from DATABASE_TOS_BUCKET / DATABASE_TOS_REGION, and when
the variable is unset the built-in default constant is used; moreover
whenever the workflow constructs the transfer client, the client receives
exactly the resolved region. -/
theorem C9_bucket_region_resolution (w : World) :
    (∀ b, resolveBucket w (some b) = b) ∧
    (∀ v, w.env "DATABASE_TOS_BUCKET" = some v → resolveBucket w none = v) ∧
    (w.env "DATABASE_TOS_BUCKET" = none →
      resolveBucket w none = DEFAULT_BUCKET) ∧
    (∀ r, resolveRegion w (some r) = r) ∧
    (∀ v, w.env "DATABASE_TOS_REGION" = some v → resolveRegion w none = v) ∧
    (w.env "DATABASE_TOS_REGION" = none →
      resolveRegion w none = DEFAULT_REGION) ∧
    (∀ file_path b k r a s st e,
      (upload_file_to_tos w file_path b k r a s st e).2.clientArgs = none ∨
      ∃ ca, (upload_file_to_tos w file_path b k r a s st e).2.clientArgs =
          some ca ∧ ca.region = resolveRegion w r ∧
        ca.endpoint = "tos-" ++ resolveRegion w r ++ ".bytepluses.com") := by
  refine ⟨fun b => rfl, fun v hv => ?_, fun h => ?_, fun r => rfl,
    fun v hv => ?_, fun h => ?_, ?_⟩
  · simp [resolveBucket, hv]
  · simp [resolveBucket, h]
  · simp [resolveRegion, hv]
  · simp [resolveRegion, h]
  · intro file_path b k r a s st e
    unfold upload_file_to_tos afterCredentials tryTransfer
    dsimp only
    repeat' split
    all_goals first
      | exact Or.inl rfl
      | exact Or.inr ⟨_, rfl, rfl, rfl⟩

/-- Witness for C9 at a concrete world with no container/region
environment variables set. -/
theorem C9_witness :
    resolveBucket wHappy (some "mybkt") = "mybkt" ∧
    resolveBucket wHappy none = DEFAULT_BUCKET ∧
    resolveRegion wHappy none = DEFAULT_REGION :=
  ⟨(C9_bucket_region_resolution wHappy).1 "mybkt",
   (C9_bucket_region_resolution wHappy).2.2.1 rfl,
   (C9_bucket_region_resolution wHappy).2.2.2.2.2.1 rfl⟩

/-- C10: supplying the empty string as object key is indistinguishable
from supplying no key — the whole invocation result is identical — and on
paths that reach the transfer, both the transfer and (when it happens) the
signing call use the auto-derived key, never the empty string. -/
theorem C10_empty_object_key_like_absent (w : World) (file_path : String)
    (b r a s st : Option String) (e : Nat) :
    upload_file_to_tos w file_path b (some "") r a s st e =
      upload_file_to_tos w file_path b none r a s st e ∧
    (w.fileExists file_path = true → w.isFile file_path = true →
      credsObtained w → w.newClient = Except.ok () →
      headBucketStep w (resolveBucket w b) = Except.ok () →
      (upload_file_to_tos w file_path b (some "") r a s st e).2.putArgs =
        some (resolveBucket w b, autoObjectKey file_path w.now, file_path) ∧
      ((upload_file_to_tos w file_path b (some "") r a s st e).2.signArgs =
          none ∨
        (upload_file_to_tos w file_path b (some "") r a s st e).2.signArgs =
          some (HttpMethodType.Http_Method_Get, resolveBucket w b,
            autoObjectKey file_path w.now, e))) := by
  refine ⟨rfl, fun hF hI hC hN hH => ?_⟩
  obtain ⟨akv, skv, tok, tr, heq, -, -, -, -, -, -, -, -, hsa⟩ :=
    upload_reaches_transfer w file_path b (some "") r a s st e hF hI hC
  constructor
  · rw [heq, tryTransfer_putArgs _ _ _ _ _ _ _ _ _ _ hN hH]
    rfl
  · rw [heq]
    unfold tryTransfer
    simp only [hN, hH]
    repeat' split
    all_goals first
      | exact Or.inl hsa
      | exact Or.inr rfl

/-- Witness for C10: with the empty-string key the concrete invocation
equals the key-absent invocation and transfers under the derived key. -/
theorem C10_witness :
    upload_file_to_tos wHappy "video.mp4" none (some "") none none none none
        604800 =
      upload_file_to_tos wHappy "video.mp4" none none none none none none
        604800 ∧
    (upload_file_to_tos wHappy "video.mp4" none (some "") none none none none
      604800).2.putArgs =
      some ("aaa-bbb-ccc-ddd", "upload/video.mp4_20250102_030405", "video.mp4") :=
  ⟨(C10_empty_object_key_like_absent wHappy "video.mp4" none none none none
      none 604800).1,
   (((C10_empty_object_key_like_absent wHappy "video.mp4" none none none none
      none 604800).2 rfl rfl (Or.inl (by decide)) rfl rfl).1).trans (by decide)⟩
